import Mathlib

/-!
Verification of `src/benchq/resource_estimation/graph/extrapolation_estimator.py`.

The module fits degree-1 least-squares curves to resource measurements taken at
small step counts and projects them to a target step count.  The embedding
models Python floats by exact arithmetic over a linear ordered field `K`
(instantiated at `ℚ` where everything is computable, and at `ℝ` for the
logarithmic fit, which needs `Real.log`).  Two floating-point phenomena that
exact arithmetic cannot represent directly are modelled explicitly:

* `np.polyfit(x, y, 1, full=True)` passes the residual array of
  `np.linalg.lstsq` through unchanged, and that array is *empty* whenever the
  number of equations is at most the number of unknowns (here: at most 2
  sample points) or the design matrix is rank deficient (here: all `x` equal).
  Indexing `sum_of_residuals[0]` then raises `IndexError`.  The embedding
  returns the residual list and indexes it with `List.head?`.
* An IEEE division `0/0` (zero-variance dependent values) yields NaN without
  raising; the R-squared value is therefore embedded as `Option K`, with
  `none` standing for NaN.  Likewise `np.log` of a non-positive float yields
  NaN or -inf with only a RuntimeWarning; the poisoned downstream values are
  modelled by a dedicated error value `PyErr.nanPoisoned` (see the doc comment
  of `_get_logarithmic_extrapolation`).
-/

namespace Benchq

/-- Abnormal outcomes of the Python code, as the surrounding interpreter would
classify them.  `valueError` carries the message string built by the source.
`nanPoisoned` is the modelling device for float NaN and -inf contamination
described in the file comment. -/
inductive PyErr where
  | indexError
  | typeErrorMismatchedLengths
  | typeErrorEmptyVector
  | assertionError
  | valueError (msg : String)
  | nanPoisoned
  deriving DecidableEq

variable {K : Type*} [LinearOrderedField K] [FloorRing K]

/-- All entries of the list are equal.  For the degree-1 Vandermonde matrix
`[x 1]` built by `np.polyfit`, this is (in exact arithmetic) precisely rank
deficiency, one of the two conditions under which `np.linalg.lstsq` returns an
empty residual array. -/
def allEqual (x : List K) : Prop := ∀ a ∈ x, ∀ b ∈ x, a = b

instance allEqualDec [DecidableEq K] (x : List K) : Decidable (allEqual x) :=
  List.decidableBAll _ x

/-- Population variance `np.var` (divisor `n`, the numpy default `ddof=0`). -/
def npVar (y : List K) : K :=
  ((y.map fun t => (t - y.sum / (y.length : K)) ^ 2).sum) / (y.length : K)

/-- Result of `np.polyfit(x, y, 1, full=True)`: the two coefficients and the
residual list (empty under the conditions described at `allEqual`). -/
structure PolyfitResult (K : Type*) where
  m : K
  c : K
  resids : List K

/-- Embedding of `np.polyfit(x, y, 1, full=True)`: ordinary least squares for
`y = m*x + c` in closed form, plus the residual sum of squares.  The residual
list is empty when `len(x) <= 2` or the design matrix is rank deficient
(all `x` equal), mirroring the `np.linalg.lstsq` contract.  (In the
rank-deficient case the coefficients delivered by the code are a minimum-norm
junk solution and, when every `x` is zero, float NaNs from numpy's column
scaling; the embedding's closed forms are junk there too, which is harmless
because the caller's `sum_of_residuals[0]` fails before the coefficients are
read.) -/
def polyfit1 [DecidableEq K] (x y : List K) : PolyfitResult K :=
  let n : K := (x.length : K)
  let sx := x.sum
  let sy := y.sum
  let sxx := (x.map fun t => t ^ 2).sum
  let sxy := (List.zipWith (fun a b => a * b) x y).sum
  let m := (n * sxy - sx * sy) / (n * sxx - sx ^ 2)
  let c := (sy - m * sx) / n
  let rss := (List.zipWith (fun a b => (b - (m * a + c)) ^ 2) x y).sum
  { m := m, c := c,
    resids := if x.length ≤ 2 ∨ allEqual x then [] else [rss] }

/-- Round to the nearest integer, ties to the even integer: the rounding mode
of Python's built-in `round`. -/
def roundHalfEven (v : K) : ℤ :=
  if v - (⌊v⌋ : K) < 1 / 2 then ⌊v⌋
  else if (1 : K) / 2 < v - (⌊v⌋ : K) then ⌊v⌋ + 1
  else if ⌊v⌋ % 2 = 0 then ⌊v⌋ else ⌊v⌋ + 1

/-- Python's `round(v, 5)`: round to 5 decimal places, ties to even. -/
def pyRound5 (v : K) : K := ((roundHalfEven (v * 100000) : ℤ) : K) / 100000

/-- Embedding of `_get_linear_extrapolation(x, y, steps_to_extrapolate_to)`.
The length guards reproduce the `TypeError`s `np.polyfit` raises up front;
`resids.head?` is `sum_of_residuals[0]`, whose failure surfaces as
`IndexError`; the returned pair is `(ceil(round(m*q + c, 5)), r_squared)` with
`r_squared = 1 - rss / (len(y) * np.var(y))` embedded as `none` (NaN) when the
denominator is zero. -/
def _get_linear_extrapolation [DecidableEq K] (x y : List K)
    (steps_to_extrapolate_to : K) : Except PyErr (ℤ × Option K) :=
  if x.length = 0 then .error .typeErrorEmptyVector
  else if x.length ≠ y.length then .error .typeErrorMismatchedLengths
  else
    match (polyfit1 x y).resids.head? with
    | none => .error .indexError
    | some rss =>
        .ok (⌈pyRound5 ((polyfit1 x y).m * steps_to_extrapolate_to
                + (polyfit1 x y).c)⌉,
             if (y.length : K) * npVar y = 0 then none
             else some (1 - rss / ((y.length : K) * npVar y)))

/-- Embedding of `_get_logarithmic_extrapolation(x, y, steps_to_extrapolate_to)`.
The source computes `log_x = np.log(x)` and then runs the same fit as the
linear variant on `(log_x, y)`, except that the projected value
`m * np.log(steps_to_extrapolate_to) + c` is passed to `ceil` *without* the
`round(_, 5)` cleanup step.  `np.log` of a non-positive float produces NaN or
`-inf` (with a RuntimeWarning, not an exception), after which the fit's
behaviour is controlled by IEEE NaN propagation; since `ℝ` has no NaN, that
whole regime is modelled by the guard returning `PyErr.nanPoisoned`.  The
embedding is faithful on positive inputs (and on a positive query point). -/
noncomputable def _get_logarithmic_extrapolation (x y : List ℝ)
    (steps_to_extrapolate_to : ℝ) : Except PyErr (ℤ × Option ℝ) :=
  if ∃ a ∈ x, a ≤ 0 then .error .nanPoisoned
  else
    if (x.map Real.log).length = 0 then .error .typeErrorEmptyVector
    else if (x.map Real.log).length ≠ y.length then .error .typeErrorMismatchedLengths
    else
      match (polyfit1 (x.map Real.log) y).resids.head? with
      | none => .error .indexError
      | some rss =>
          .ok (⌈(polyfit1 (x.map Real.log) y).m * Real.log steps_to_extrapolate_to
                  + (polyfit1 (x.map Real.log) y).c⌉,
               if (y.length : ℝ) * npVar y = 0 then none
               else some (1 - rss / ((y.length : ℝ) * npVar y)))

/-- Fields of `QuantumProgram` that the estimator reads.  The class itself
lives in `benchq.data_structures`, outside the reviewed slice; the fields are
exactly those the source accesses (`steps`, `n_nodes`, `n_t_gates`,
`n_rotation_gates`). -/
structure QuantumProgram where
  steps : ℤ
  n_nodes : ℤ
  n_t_gates : ℤ
  n_rotation_gates : ℤ

/-- Modelled from the spec: the object held by
`AlgorithmImplementation.program` need not be a `QuantumProgram` (the entry
point asserts that it is); anything else is collapsed to an opaque tag. -/
inductive ProgramObject where
  | quantum (p : QuantumProgram)
  | other (tag : String)

/-- Modelled from the spec: `AlgorithmImplementation` (external plumbing) is
reduced to the one field the estimator reads. -/
structure AlgorithmImplementation where
  program : ProgramObject

/-- Modelled from the spec: the per-sample resource report produced upstream
and also returned by the downstream resource-computation step.  The integer
fields are the counts the source reads; the real fields are the remaining
base resource numbers listed in the spec (timing, error rate, decoder
figures). -/
structure ResourceInfo where
  n_logical_qubits : ℤ
  n_measurement_steps : ℤ
  n_nodes : ℤ
  n_t_gates : ℤ
  n_rotation_gates : ℤ
  code_distance : ℤ
  logical_error_rate : ℝ
  total_time_in_seconds : ℝ
  n_physical_qubits : ℤ
  decoder_total_energy_consumption : ℝ
  decoder_power : ℝ
  decoder_area : ℝ
  max_decodable_distance : ℤ

/-- Modelled from the spec: the graph-data record consumed by the downstream
step (`GraphData` lives in `graph_estimator.py`, outside the sources); its
fields are the ones the source constructor call supplies. -/
structure GraphData where
  max_graph_degree : ℤ
  n_nodes : ℤ
  n_t_gates : ℤ
  n_rotation_gates : ℤ
  n_measurement_steps : ℤ

/-- The `ExtrapolatedGraphData` dataclass: `GraphData` plus the two R-squared
scores (with `none` standing for float NaN). -/
structure ExtrapolatedGraphData extends GraphData where
  max_graph_degree_r_squared : Option ℝ
  n_measurement_steps_r_squared : Option ℝ

/-- The `ExtrapolatedResourceInfo` dataclass: a base report plus the two
R-squared scores, the samples used, and the target step count. -/
structure ExtrapolatedResourceInfo extends ResourceInfo where
  n_logical_qubits_r_squared : Option ℝ
  n_measurement_steps_r_squared : Option ℝ
  data_used_to_extrapolate : List ResourceInfo
  steps_to_extrapolate_to : ℤ

/-- State of an `ExtrapolationResourceEstimator`.  `steps_to_extrapolate_from`
and `n_measurement_steps_fit_type` are the constructor arguments the source
reads.  `estimate_resources_from_graph_data` is the inherited method
`GraphResourceEstimator._estimate_resources_from_graph_data`.  Modelled from
the spec: `graph_estimator.py` is not among the sources, and the spec treats
the downstream resource computation as an external collaborator that turns
graph data into base resource numbers, so it is embedded as an abstract
function-valued field (it also absorbs the hardware/decoder configuration). -/
structure ExtrapolationResourceEstimator where
  steps_to_extrapolate_from : List ℤ
  n_measurement_steps_fit_type : String
  estimate_resources_from_graph_data :
    ExtrapolatedGraphData → AlgorithmImplementation → ResourceInfo

/-- Embedding of `ExtrapolationResourceEstimator._get_extrapolated_graph_data`:
a Linear fit of the `n_logical_qubits` samples (always), then a fit of the
`n_measurement_steps` samples whose family is chosen by the configured string,
with a `ValueError` for an unrecognized string; the projections are combined
with the target program's exact gate counts, `n_nodes` being *recomputed* as
`n_t_gates + n_rotation_gates`. -/
noncomputable def _get_extrapolated_graph_data
    (self : ExtrapolationResourceEstimator)
    (data : List ResourceInfo) (program : QuantumProgram) :
    Except PyErr ExtrapolatedGraphData :=
  match _get_linear_extrapolation
      (self.steps_to_extrapolate_from.map fun s => (s : ℝ))
      (data.map fun d => (d.n_logical_qubits : ℝ))
      (program.steps : ℝ) with
  | .error e => .error e
  | .ok degreeFit =>
    match
      (if self.n_measurement_steps_fit_type = "logarithmic" then
        _get_logarithmic_extrapolation
          (self.steps_to_extrapolate_from.map fun s => (s : ℝ))
          (data.map fun d => (d.n_measurement_steps : ℝ))
          (program.steps : ℝ)
      else if self.n_measurement_steps_fit_type = "linear" then
        _get_linear_extrapolation
          (self.steps_to_extrapolate_from.map fun s => (s : ℝ))
          (data.map fun d => (d.n_measurement_steps : ℝ))
          (program.steps : ℝ)
      else
        .error (.valueError
          ("n_measurement_steps_fit_type must be either \x27logarithmic\x27 or \x27linear\x27, not "
            ++ self.n_measurement_steps_fit_type))) with
    | .error e => .error e
    | .ok msFit =>
      .ok { max_graph_degree := degreeFit.1
            n_measurement_steps := msFit.1
            n_nodes := program.n_t_gates + program.n_rotation_gates
            n_t_gates := program.n_t_gates
            n_rotation_gates := program.n_rotation_gates
            max_graph_degree_r_squared := degreeFit.2
            n_measurement_steps_r_squared := msFit.2 }

/-- Embedding of `ExtrapolationResourceEstimator.estimate_via_extrapolation`.
The leading `assert isinstance(..., QuantumProgram)` becomes a match on the
program object; the final report re-wraps the downstream result, overriding
`n_nodes` with the program's own `n_nodes` and attaching the two R-squared
scores, the samples and the target step count. -/
noncomputable def estimate_via_extrapolation
    (self : ExtrapolationResourceEstimator)
    (algorithm_description : AlgorithmImplementation)
    (data : List ResourceInfo) : Except PyErr ExtrapolatedResourceInfo :=
  match algorithm_description.program with
  | .other _ => .error .assertionError
  | .quantum program =>
    match _get_extrapolated_graph_data self data program with
    | .error e => .error e
    | .ok extrapolated_info =>
      let resource_info :=
        self.estimate_resources_from_graph_data extrapolated_info
          algorithm_description
      .ok { n_logical_qubits := resource_info.n_logical_qubits
            n_measurement_steps := resource_info.n_measurement_steps
            n_nodes := program.n_nodes
            n_t_gates := resource_info.n_t_gates
            n_rotation_gates := resource_info.n_rotation_gates
            code_distance := resource_info.code_distance
            logical_error_rate := resource_info.logical_error_rate
            total_time_in_seconds := resource_info.total_time_in_seconds
            n_physical_qubits := resource_info.n_physical_qubits
            decoder_total_energy_consumption :=
              resource_info.decoder_total_energy_consumption
            decoder_power := resource_info.decoder_power
            decoder_area := resource_info.decoder_area
            max_decodable_distance := resource_info.max_decodable_distance
            n_logical_qubits_r_squared :=
              extrapolated_info.max_graph_degree_r_squared
            n_measurement_steps_r_squared :=
              extrapolated_info.n_measurement_steps_r_squared
            data_used_to_extrapolate := data
            steps_to_extrapolate_to := program.steps }

/-! Concrete records used by the scenario theorems below. -/

/-- A base report with arbitrary but fixed values, standing in for the output
of the upstream per-size estimation runs and of the downstream
resource-computation step. -/
noncomputable def baseRI : ResourceInfo :=
  { n_logical_qubits := 11, n_measurement_steps := 12, n_nodes := 13,
    n_t_gates := 30, n_rotation_gates := 40, code_distance := 5,
    logical_error_rate := 0, total_time_in_seconds := 0,
    n_physical_qubits := 1000, decoder_total_energy_consumption := 0,
    decoder_power := 0, decoder_area := 0, max_decodable_distance := 50 }

/-- A sample with the given logical-qubit and measurement-step counts. -/
noncomputable def mkSample (nlq nms : ℤ) : ResourceInfo :=
  { baseRI with n_logical_qubits := nlq, n_measurement_steps := nms }

/-- Three samples whose metrics grow linearly with the step counts 1, 2, 3. -/
noncomputable def sampleData : List ResourceInfo :=
  [mkSample 1 1, mkSample 2 2, mkSample 3 3]

/-- A two-sample data set (matching steps 1, 2). -/
noncomputable def sampleData2 : List ResourceInfo :=
  [mkSample 5 5, mkSample 6 6]

/-- A target program with 4 steps, 7 nodes, 3 T gates and 2 rotation gates. -/
def prog4 : QuantumProgram :=
  { steps := 4, n_nodes := 7, n_t_gates := 3, n_rotation_gates := 2 }

/-- An algorithm description holding `prog4`. -/
def algQ : AlgorithmImplementation := { program := .quantum prog4 }

/-- An algorithm description whose program is not a `QuantumProgram`. -/
def algOther : AlgorithmImplementation :=
  { program := .other "bell_state_circuit" }

/-- An estimator configured with the Linear measurement-step family. -/
noncomputable def estLin : ExtrapolationResourceEstimator :=
  { steps_to_extrapolate_from := [1, 2, 3],
    n_measurement_steps_fit_type := "linear",
    estimate_resources_from_graph_data := fun _ _ => baseRI }

/-- The same estimator with an unrecognized measurement-step family. -/
noncomputable def estExp : ExtrapolationResourceEstimator :=
  { estLin with n_measurement_steps_fit_type := "exponential" }

/-- An estimator with an unrecognized family and only two source steps. -/
noncomputable def estBad2 : ExtrapolationResourceEstimator :=
  { steps_to_extrapolate_from := [1, 2],
    n_measurement_steps_fit_type := "exponential",
    estimate_resources_from_graph_data := fun _ _ => baseRI }

/-- The graph data `_get_extrapolated_graph_data estLin sampleData prog4`
produces: both projections extrapolate the exact line `y = t` to step 4, and
`n_nodes` is recomputed as `n_t_gates + n_rotation_gates = 5`. -/
noncomputable def gdStar : ExtrapolatedGraphData :=
  { max_graph_degree := 4, n_measurement_steps := 4, n_nodes := 5,
    n_t_gates := 3, n_rotation_gates := 2,
    max_graph_degree_r_squared := some 1,
    n_measurement_steps_r_squared := some 1 }

/-- The report `estimate_via_extrapolation estLin algQ sampleData` returns:
the downstream result `baseRI` with `n_nodes` overridden by `prog4.n_nodes`
and the extrapolation provenance attached. -/
noncomputable def repStar : ExtrapolatedResourceInfo :=
  { n_logical_qubits := 11, n_measurement_steps := 12, n_nodes := 7,
    n_t_gates := 30, n_rotation_gates := 40, code_distance := 5,
    logical_error_rate := 0, total_time_in_seconds := 0,
    n_physical_qubits := 1000, decoder_total_energy_consumption := 0,
    decoder_power := 0, decoder_area := 0, max_decodable_distance := 50,
    n_logical_qubits_r_squared := some 1,
    n_measurement_steps_r_squared := some 1,
    data_used_to_extrapolate := sampleData,
    steps_to_extrapolate_to := 4 }

/-! Arithmetic support lemmas about list sums. -/

theorem list_sum_nonneg_pos (l : List K) (h0 : ∀ a ∈ l, 0 ≤ a)
    (h1 : ∃ a ∈ l, 0 < a) : 0 < l.sum := by
  induction l with
  | nil => obtain ⟨a, ha, _⟩ := h1; exact absurd ha (List.not_mem_nil a)
  | cons a t ih =>
    rw [List.sum_cons]
    obtain ⟨v, hv, hvpos⟩ := h1
    rcases List.mem_cons.1 hv with rfl | hvt
    · exact add_pos_of_pos_of_nonneg hvpos
        (List.sum_nonneg fun b hb => h0 b (List.mem_cons_of_mem _ hb))
    · exact add_pos_of_nonneg_of_pos (h0 a (List.mem_cons_self a t))
        (ih (fun b hb => h0 b (List.mem_cons_of_mem _ hb)) ⟨v, hvt, hvpos⟩)

theorem sum_map_affine (a b : K) (x : List K) :
    (x.map fun t => a * t + b).sum = a * x.sum + (x.length : K) * b := by
  induction x with
  | nil => simp
  | cons u t ih => simp [ih]; push_cast; ring

theorem sum_zip_affine (a b : K) (x : List K) :
    (List.zipWith (fun u v => u * v) x (x.map fun t => a * t + b)).sum
      = a * (x.map fun t => t ^ 2).sum + b * x.sum := by
  induction x with
  | nil => simp
  | cons u t ih => simp [ih]; ring

theorem sum_zip_residual_zero (a b : K) (x : List K) :
    (List.zipWith (fun u v => (v - (a * u + b)) ^ 2) x
        (x.map fun t => a * t + b)).sum = 0 := by
  induction x with
  | nil => simp
  | cons u t ih => simp [ih]

theorem sum_map_sq_sub (x : List K) (c : K) :
    (x.map fun t => (t - c) ^ 2).sum
      = (x.map fun t => t ^ 2).sum - 2 * c * x.sum + (x.length : K) * c ^ 2 := by
  induction x with
  | nil => simp
  | cons u t ih => simp [ih]; push_cast; ring

theorem exists_ne_mean (x : List K) (hne : ¬ allEqual x) :
    ∃ u ∈ x, u ≠ x.sum / (x.length : K) := by
  unfold allEqual at hne
  push_neg at hne
  obtain ⟨u, hu, v, hv, huv⟩ := hne
  by_cases h : u = x.sum / (x.length : K)
  · exact ⟨v, hv, fun hv2 => huv (h.trans hv2.symm)⟩
  · exact ⟨u, hu, h⟩

theorem sum_sq_dev_pos (x : List K) (hne : ¬ allEqual x) :
    0 < (x.map fun t => (t - x.sum / (x.length : K)) ^ 2).sum := by
  obtain ⟨u, hu, hud⟩ := exists_ne_mean x hne
  refine list_sum_nonneg_pos _ ?_ ?_
  · intro v hv
    obtain ⟨t, _, rfl⟩ := List.mem_map.1 hv
    exact sq_nonneg _
  · exact ⟨(u - x.sum / (x.length : K)) ^ 2, List.mem_map_of_mem _ hu,
      pow_two_pos_of_ne_zero (sub_ne_zero.2 hud)⟩

theorem allEqual_nil : allEqual ([] : List K) := by
  intro a ha
  exact absurd ha (List.not_mem_nil a)

theorem det_pos (x : List K) (hne : ¬ allEqual x) :
    0 < (x.length : K) * (x.map fun t => t ^ 2).sum - x.sum ^ 2 := by
  have hx : x ≠ [] := by rintro rfl; exact hne allEqual_nil
  have hn : 0 < (x.length : K) :=
    Nat.cast_pos.2 (List.length_pos.2 hx)
  have key : (x.length : K) * ((x.map fun t => (t - x.sum / (x.length : K)) ^ 2).sum)
      = (x.length : K) * (x.map fun t => t ^ 2).sum - x.sum ^ 2 := by
    rw [sum_map_sq_sub]
    field_simp
    ring
  rw [← key]
  exact mul_pos hn (sum_sq_dev_pos x hne)

theorem total_ss_pos (y : List K) (hne : ¬ allEqual y) :
    0 < (y.length : K) * npVar y := by
  have hy : y ≠ [] := by rintro rfl; exact hne allEqual_nil
  have hn : (y.length : K) ≠ 0 :=
    ne_of_gt (Nat.cast_pos.2 (List.length_pos.2 hy))
  unfold npVar
  rw [mul_comm, div_mul_cancel₀ _ hn]
  exact sum_sq_dev_pos y hne

theorem not_allEqual_map_affine (a b : K) (ha : a ≠ 0) (x : List K)
    (hne : ¬ allEqual x) : ¬ allEqual (x.map fun t => a * t + b) := by
  intro h
  apply hne
  intro u hu v hv
  have := h (a * u + b) (List.mem_map_of_mem _ hu)
    (a * v + b) (List.mem_map_of_mem _ hv)
  have h2 : a * u = a * v := by linarith
  exact mul_left_cancel₀ ha h2

/-! Exact behaviour of the embedded `np.polyfit` on collinear data. -/

theorem polyfit1_collinear (a b : K) (x : List K) (h3 : 3 ≤ x.length)
    (hne : ¬ allEqual x) :
    polyfit1 x (x.map fun t => a * t + b) = ⟨a, b, [0]⟩ := by
  have hD : (x.length : K) * (x.map fun t => t ^ 2).sum - x.sum ^ 2 ≠ 0 :=
    ne_of_gt (det_pos x hne)
  have hn : (x.length : K) ≠ 0 := Nat.cast_ne_zero.2 (by omega)
  have hm : ((x.length : K) * (List.zipWith (fun u v => u * v) x
        (x.map fun t => a * t + b)).sum
        - x.sum * (x.map fun t => a * t + b).sum)
      / ((x.length : K) * (x.map fun t => t ^ 2).sum - x.sum ^ 2) = a := by
    rw [sum_zip_affine, sum_map_affine,
      show (x.length : K) * (a * (x.map fun t => t ^ 2).sum + b * x.sum)
          - x.sum * (a * x.sum + (x.length : K) * b)
        = a * ((x.length : K) * (x.map fun t => t ^ 2).sum - x.sum ^ 2) from by
        ring]
    exact mul_div_cancel_right₀ a hD
  have hc : ((x.map fun t => a * t + b).sum - a * x.sum) / (x.length : K)
      = b := by
    rw [sum_map_affine,
      show a * x.sum + (x.length : K) * b - a * x.sum = (x.length : K) * b from
        by ring]
    exact mul_div_cancel_left₀ b hn
  simp only [polyfit1]
  rw [if_neg (by push_neg; exact ⟨by omega, hne⟩)]
  rw [hm, hc, sum_zip_residual_zero]

theorem roundHalfEven_intCast (k : ℤ) : roundHalfEven ((k : K)) = k := by
  unfold roundHalfEven
  rw [Int.floor_intCast, if_pos (by norm_num : (k : K) - (k : K) < 1 / 2)]

theorem pyRound5_intCast (k : ℤ) : pyRound5 ((k : K)) = (k : K) := by
  unfold pyRound5
  rw [show (k : K) * 100000 = ((k * 100000 : ℤ) : K) from by push_cast; ring,
    roundHalfEven_intCast]
  push_cast
  field_simp

/-! Behaviour of the two fit functions on exactly collinear data with at
least 3 sample points, and on short inputs. -/

theorem linfit_collinear_core (a b q : K) (x : List K) (h3 : 3 ≤ x.length)
    (hne : ¬ allEqual x) (ha : a ≠ 0) :
    _get_linear_extrapolation x (x.map fun t => a * t + b) q
      = .ok (⌈pyRound5 (a * q + b)⌉, some 1) := by
  have hvar : (x.length : K) * npVar (x.map fun t => a * t + b) ≠ 0 := by
    have := total_ss_pos (x.map fun t => a * t + b)
      (not_allEqual_map_affine a b ha x hne)
    rw [List.length_map] at this
    exact ne_of_gt this
  unfold _get_linear_extrapolation
  rw [List.length_map]
  rw [if_neg (by omega : ¬ x.length = 0)]
  rw [if_neg (by simp : ¬ x.length ≠ x.length)]
  rw [polyfit1_collinear a b x h3 hne]
  simp only [List.head?]
  rw [if_neg hvar]
  norm_num

theorem logfit_collinear_core (a b q : ℝ) (x : List ℝ) (hpos : ∀ t ∈ x, 0 < t)
    (h3 : 3 ≤ x.length) (hne : ¬ allEqual (x.map Real.log)) (ha : a ≠ 0) :
    _get_logarithmic_extrapolation x ((x.map Real.log).map fun t => a * t + b) q
      = .ok (⌈a * Real.log q + b⌉, some 1) := by
  have h3l : 3 ≤ (x.map Real.log).length := by simpa using h3
  have hvar : (x.length : ℝ)
      * npVar ((x.map Real.log).map fun t => a * t + b) ≠ 0 := by
    have := total_ss_pos ((x.map Real.log).map fun t => a * t + b)
      (not_allEqual_map_affine a b ha (x.map Real.log) hne)
    rw [List.length_map, List.length_map] at this
    exact ne_of_gt this
  unfold _get_logarithmic_extrapolation
  rw [if_neg (by push_neg; exact hpos)]
  simp only [List.length_map]
  rw [if_neg (by omega : ¬ x.length = 0)]
  rw [if_neg (by simp : ¬ x.length ≠ x.length)]
  rw [polyfit1_collinear a b (x.map Real.log) h3l hne]
  simp only [List.head?]
  rw [if_neg hvar]
  norm_num

theorem linfit_short_input (x y : List K) (q : K) (hlen : x.length = y.length)
    (hx : x ≠ []) (h2 : x.length ≤ 2) :
    _get_linear_extrapolation x y q = .error .indexError := by
  unfold _get_linear_extrapolation
  rw [if_neg (fun h => hx (List.length_eq_zero.1 h))]
  rw [if_neg (by simp [hlen] : ¬ x.length ≠ y.length)]
  simp only [polyfit1]
  rw [if_pos (Or.inl h2)]
  rfl

theorem logfit_short_input (x y : List ℝ) (q : ℝ) (hpos : ∀ a ∈ x, 0 < a)
    (hlen : x.length = y.length) (hx : x ≠ []) (h2 : x.length ≤ 2) :
    _get_logarithmic_extrapolation x y q = .error .indexError := by
  unfold _get_logarithmic_extrapolation
  rw [if_neg (by push_neg; exact hpos)]
  simp only [List.length_map]
  rw [if_neg (fun h => hx (List.length_eq_zero.1 h))]
  rw [if_neg (by simp [hlen] : ¬ x.length ≠ y.length)]
  simp only [polyfit1]
  rw [if_pos (Or.inl (by simpa using h2))]
  rfl

/-! Concrete evaluations used by the scenario theorems. -/

theorem notAllEqual123 : ¬ allEqual ([1, 2, 3] : List K) := by
  intro h
  have := h 1 (by simp) 2 (by simp)
  norm_num at this

theorem linfit_eval_basic :
    _get_linear_extrapolation (K := ℝ) [1, 2, 3] [1, 2, 3] 4
      = .ok (4, some 1) := by
  have hy : ([1, 2, 3] : List ℝ) = [1, 2, 3].map fun t => 1 * t + 0 := by
    norm_num
  nth_rewrite 2 [hy]
  rw [linfit_collinear_core 1 0 4 [1, 2, 3] (by norm_num) notAllEqual123
    one_ne_zero]
  have h4 : (⌈pyRound5 ((1 : ℝ) * 4 + 0)⌉ : ℤ) = 4 := by
    rw [show (1 : ℝ) * 4 + 0 = ((4 : ℤ) : ℝ) from by norm_num, pyRound5_intCast,
      Int.ceil_intCast]
  rw [h4]

theorem logList_eval :
    ([1, Real.exp 1, Real.exp 2] : List ℝ).map Real.log = [0, 1, 2] := by
  simp [Real.log_exp]

theorem epsList_eval :
    ([2 + 1 / 1000000, 3 + 1 / 1000000, 4 + 1 / 1000000] : List ℝ)
      = (([1, Real.exp 1, Real.exp 2] : List ℝ).map Real.log).map
          fun t => 1 * t + (2 + 1 / 1000000) := by
  rw [logList_eval]
  norm_num

theorem notAllEqual012 : ¬ allEqual ([0, 1, 2] : List ℝ) := by
  intro h
  have := h 0 (by simp) 1 (by simp)
  norm_num at this

theorem logfit_eval_basic :
    _get_logarithmic_extrapolation [1, Real.exp 1, Real.exp 2]
      [2 + 1 / 1000000, 3 + 1 / 1000000, 4 + 1 / 1000000] 1
      = .ok (3, some 1) := by
  rw [epsList_eval]
  rw [logfit_collinear_core 1 (2 + 1 / 1000000) 1 [1, Real.exp 1, Real.exp 2]
    (by norm_num [Real.exp_pos]) (by norm_num)
    (by rw [logList_eval]; exact notAllEqual012) one_ne_zero]
  have h3 : (⌈(1 : ℝ) * Real.log 1 + (2 + 1 / 1000000)⌉ : ℤ) = 3 := by
    rw [show (1 : ℝ) * Real.log 1 + (2 + 1 / 1000000) = 2 + 1 / 1000000 from by
      simp [Real.log_one]]
    rw [Int.ceil_eq_iff] <;> norm_num
  rw [h3]

theorem polyfit_log_eval :
    polyfit1 (([1, Real.exp 1, Real.exp 2] : List ℝ).map Real.log)
      [2 + 1 / 1000000, 3 + 1 / 1000000, 4 + 1 / 1000000]
      = ⟨1, 2 + 1 / 1000000, [0]⟩ := by
  rw [epsList_eval, logList_eval]
  exact polyfit1_collinear 1 (2 + 1 / 1000000) [0, 1, 2] (by norm_num)
    notAllEqual012

theorem pyRound5_eval_eps : pyRound5 ((2 : ℝ) + 1 / 1000000) = 2 := by
  unfold pyRound5 roundHalfEven
  have hfl : ⌊((2 : ℝ) + 1 / 1000000) * 100000⌋ = 200000 := by
    rw [Int.floor_eq_iff] <;> norm_num
  rw [hfl, if_pos (by norm_num :
    ((2 : ℝ) + 1 / 1000000) * 100000 - ((200000 : ℤ) : ℝ) < 1 / 2)]
  norm_num

theorem stepsCast_eval : (([1, 2, 3] : List ℤ).map fun s => (s : ℝ)) = [1, 2, 3] := by
  norm_num

theorem steps2Cast_eval : (([1, 2] : List ℤ).map fun s => (s : ℝ)) = [1, 2] := by
  norm_num

theorem nlqCast_eval :
    (sampleData.map fun d => (d.n_logical_qubits : ℝ)) = [1, 2, 3] := by
  norm_num [sampleData, mkSample]

theorem nmsCast_eval :
    (sampleData.map fun d => (d.n_measurement_steps : ℝ)) = [1, 2, 3] := by
  norm_num [sampleData, mkSample]

theorem nlq2Cast_eval :
    (sampleData2.map fun d => (d.n_logical_qubits : ℝ)) = [5, 6] := by
  norm_num [sampleData2, mkSample]

theorem orch_eval :
    _get_extrapolated_graph_data estLin sampleData prog4 = .ok gdStar := by
  unfold _get_extrapolated_graph_data
  rw [show estLin.steps_to_extrapolate_from = [1, 2, 3] from rfl]
  rw [show estLin.n_measurement_steps_fit_type = "linear" from rfl]
  rw [stepsCast_eval, nlqCast_eval, nmsCast_eval]
  rw [show ((prog4.steps : ℤ) : ℝ) = 4 from by norm_num [prog4]]
  rw [linfit_eval_basic]
  rw [if_neg (by decide : ¬ ("linear" = "logarithmic"))]
  rw [if_pos (rfl : "linear" = "linear")]
  rfl

theorem estimate_eval :
    estimate_via_extrapolation estLin algQ sampleData = .ok repStar := by
  unfold estimate_via_extrapolation
  rw [show algQ.program = .quantum prog4 from rfl]
  dsimp only
  rw [orch_eval]
  rfl

theorem degree_fit_eval :
    _get_linear_extrapolation
        (estExp.steps_to_extrapolate_from.map fun s => (s : ℝ))
        (sampleData.map fun d => (d.n_logical_qubits : ℝ))
        ((prog4.steps : ℤ) : ℝ)
      = .ok (4, some 1) := by
  rw [show estExp.steps_to_extrapolate_from = [1, 2, 3] from rfl]
  rw [stepsCast_eval, nlqCast_eval]
  rw [show ((prog4.steps : ℤ) : ℝ) = 4 from by norm_num [prog4]]
  exact linfit_eval_basic

/-! Claim theorems. -/

/-- C1, counterexample: on exactly collinear data `y = 2*x + 1` with exactly
2 sample points (`x = [1, 2]`), `_get_linear_extrapolation` raises
`IndexError` — `np.polyfit(..., full=True)` hands back an empty residual
array for 2 points, so `sum_of_residuals[0]` is out of bounds — instead of
returning R-squared 1 and the projected value, as the claim states for "at
least 2 sample points". -/
theorem linear_collinear_two_points_index_error :
    _get_linear_extrapolation (K := ℚ) [1, 2]
        ([1, 2].map fun t => 2 * t + 1) 10 = .error .indexError ∧
    (Except.error PyErr.indexError : Except PyErr (ℤ × Option ℚ))
      ≠ .ok (⌈pyRound5 ((2 : ℚ) * 10 + 1)⌉, some 1) := by
  refine ⟨linfit_short_input _ _ _ (by simp) (by simp) (by simp), ?_⟩
  intro h
  exact Except.noConfusion h

/-- C1 (amended): for every linear fit on exactly collinear data
`y = a*x + b` with at least 3 sample points, independent values not all
equal, and `a ≠ 0`, `_get_linear_extrapolation` returns R-squared exactly 1
and the projected value `ceil(round(a*query + b, 5))`.  (The claim's "at
least 2 sample points" fails with IndexError, see the counterexample;
all-equal independent values make the design matrix rank deficient and hit
the same empty-residual IndexError; `a = 0` makes the dependent values
zero-variance, so the code computes R-squared as NaN, not 1.) -/
theorem linear_collinear_fit_exact (a b q : K) (x : List K)
    (h3 : 3 ≤ x.length) (hne : ¬ allEqual x) (ha : a ≠ 0) :
    _get_linear_extrapolation x (x.map fun t => a * t + b) q
      = .ok (⌈pyRound5 (a * q + b)⌉, some 1) :=
  linfit_collinear_core a b q x h3 hne ha

/-- Witness for `linear_collinear_fit_exact`: `a = 2`, `b = 1`,
`x = [1, 2, 3]`, query 10, over `ℚ`; the projection is 21 and R² = 1. -/
theorem linear_collinear_fit_exact_witness :
    3 ≤ ([1, 2, 3] : List ℚ).length ∧ ¬ allEqual ([1, 2, 3] : List ℚ) ∧
    (2 : ℚ) ≠ 0 ∧
    _get_linear_extrapolation (K := ℚ) [1, 2, 3]
        ([1, 2, 3].map fun t => 2 * t + 1) 10 = .ok (21, some 1) := by
  refine ⟨by norm_num, notAllEqual123, by norm_num, ?_⟩
  rw [linear_collinear_fit_exact 2 1 10 [1, 2, 3] (by norm_num) notAllEqual123
    (by norm_num)]
  rw [show (⌈pyRound5 ((2 : ℚ) * 10 + 1)⌉ : ℤ) = 21 from by
    rw [show (2 : ℚ) * 10 + 1 = ((21 : ℤ) : ℚ) from by norm_num,
      pyRound5_intCast, Int.ceil_intCast]]

/-- C2, counterexample: a logarithmic fit whose exact projected value is
`2 + 10⁻⁶` (data `x = [1, e, e²]`, `y = [2+10⁻⁶, 3+10⁻⁶, 4+10⁻⁶]`, query 1)
returns projection 3 = `ceil(2+10⁻⁶)`, whereas the claimed formula
`ceil(round(m*x' + c, 5))` gives 2: the source's logarithmic branch never
applies the `round(_, 5)` cleanup before `ceil`. -/
theorem log_projection_not_rounded :
    _get_logarithmic_extrapolation [1, Real.exp 1, Real.exp 2]
        [2 + 1 / 1000000, 3 + 1 / 1000000, 4 + 1 / 1000000] 1
      = .ok (3, some 1) ∧
    ⌈pyRound5 ((polyfit1 (([1, Real.exp 1, Real.exp 2] : List ℝ).map Real.log)
          [2 + 1 / 1000000, 3 + 1 / 1000000, 4 + 1 / 1000000]).m * Real.log 1
        + (polyfit1 (([1, Real.exp 1, Real.exp 2] : List ℝ).map Real.log)
          [2 + 1 / 1000000, 3 + 1 / 1000000, 4 + 1 / 1000000]).c)⌉ = 2 := by
  refine ⟨logfit_eval_basic, ?_⟩
  rw [polyfit_log_eval]
  rw [show ((⟨1, 2 + 1 / 1000000, [0]⟩ : PolyfitResult ℝ).m * Real.log 1
      + (⟨1, 2 + 1 / 1000000, [0]⟩ : PolyfitResult ℝ).c)
      = 2 + 1 / 1000000 from by simp [Real.log_one]]
  rw [pyRound5_eval_eps]
  rw [show ((2 : ℝ)) = ((2 : ℤ) : ℝ) from by norm_num, Int.ceil_intCast]

/-- C2 (amended): every successful linear projection equals
`ceil(round(m*q + c, 5))` for the fitted coefficients, but every successful
logarithmic projection equals `ceil(m*ln(q) + c)` — the logarithmic branch
omits the round-to-5-decimals step. -/
theorem projection_rounding_by_family :
    (∀ (x y : List ℝ) (q : ℝ) (r : ℤ × Option ℝ),
        _get_linear_extrapolation x y q = .ok r →
        r.1 = ⌈pyRound5 ((polyfit1 x y).m * q + (polyfit1 x y).c)⌉) ∧
    (∀ (x y : List ℝ) (q : ℝ) (r : ℤ × Option ℝ),
        _get_logarithmic_extrapolation x y q = .ok r →
        r.1 = ⌈(polyfit1 (x.map Real.log) y).m * Real.log q
                + (polyfit1 (x.map Real.log) y).c⌉) := by
  constructor
  · intro x y q r h
    unfold _get_linear_extrapolation at h
    split at h
    · exact absurd h (by simp)
    · split at h
      · exact absurd h (by simp)
      · split at h
        · exact absurd h (by simp)
        · injection h with h
          subst h
          rfl
  · intro x y q r h
    unfold _get_logarithmic_extrapolation at h
    split at h
    · exact absurd h (by simp)
    · split at h
      · exact absurd h (by simp)
      · split at h
        · exact absurd h (by simp)
        · split at h
          · exact absurd h (by simp)
          · injection h with h
            subst h
            rfl

/-- Witness for `projection_rounding_by_family`, applying the linear part at
`([1,2,3], [1,2,3], 4)` and the logarithmic part at
`([1, e, e²], [2+10⁻⁶, 3+10⁻⁶, 4+10⁻⁶], 1)`. -/
theorem projection_rounding_by_family_witness :
    _get_linear_extrapolation (K := ℝ) [1, 2, 3] [1, 2, 3] 4
      = .ok (4, some 1) ∧
    ((4 : ℤ), some (1 : ℝ)).1
      = ⌈pyRound5 ((polyfit1 ([1, 2, 3] : List ℝ) [1, 2, 3]).m * 4
          + (polyfit1 ([1, 2, 3] : List ℝ) [1, 2, 3]).c)⌉ ∧
    _get_logarithmic_extrapolation [1, Real.exp 1, Real.exp 2]
        [2 + 1 / 1000000, 3 + 1 / 1000000, 4 + 1 / 1000000] 1
      = .ok (3, some 1) ∧
    ((3 : ℤ), some (1 : ℝ)).1
      = ⌈(polyfit1 (([1, Real.exp 1, Real.exp 2] : List ℝ).map Real.log)
            [2 + 1 / 1000000, 3 + 1 / 1000000, 4 + 1 / 1000000]).m * Real.log 1
          + (polyfit1 (([1, Real.exp 1, Real.exp 2] : List ℝ).map Real.log)
            [2 + 1 / 1000000, 3 + 1 / 1000000, 4 + 1 / 1000000]).c⌉ :=
  ⟨linfit_eval_basic,
    projection_rounding_by_family.1 _ _ _ _ linfit_eval_basic,
    logfit_eval_basic,
    projection_rounding_by_family.2 _ _ _ _ logfit_eval_basic⟩

/-- C4 (code behaviour at the claimed input): with a two-point sample set
(`x = [1, 2]`, `y = [3, 5]`), both `_get_linear_extrapolation` and
`_get_logarithmic_extrapolation` raise `IndexError` instead of succeeding
with R-squared 1 — `np.linalg.lstsq` returns an empty residual array
whenever the number of equations is at most the number of unknowns. -/
theorem two_point_sample_index_error :
    _get_linear_extrapolation (K := ℚ) [1, 2] [3, 5] 10
      = .error .indexError ∧
    _get_logarithmic_extrapolation [1, 2] [3, 5] 10 = .error .indexError := by
  refine ⟨linfit_short_input _ _ _ (by simp) (by simp) (by simp), ?_⟩
  refine logfit_short_input _ _ _ ?_ (by simp) (by simp) (by simp)
  intro t ht
  rcases List.mem_cons.1 ht with rfl | ht
  · norm_num
  · rcases List.mem_cons.1 ht with rfl | ht
    · norm_num
    · exact absurd ht (List.not_mem_nil t)

/-- C5, counterexample: with the unrecognized fit type "exponential" but a
two-sample data set, `_get_extrapolated_graph_data` fails with `IndexError`
from the degree-metric fit (which runs first), not with the configuration
`ValueError` — the configuration check is not "immediate". -/
theorem bad_fit_type_short_data_index_error :
    _get_extrapolated_graph_data estBad2 sampleData2 prog4
      = .error .indexError ∧
    PyErr.indexError ≠ PyErr.valueError
      ("n_measurement_steps_fit_type must be either \x27logarithmic\x27 or \x27linear\x27, not exponential") := by
  constructor
  · unfold _get_extrapolated_graph_data
    rw [show estBad2.steps_to_extrapolate_from = [1, 2] from rfl,
      steps2Cast_eval]
    rw [linfit_short_input ([1, 2] : List ℝ)
      (sampleData2.map fun d => (d.n_logical_qubits : ℝ)) _
      (by simp [sampleData2]) (by simp) (by simp)]
  · intro h
    exact PyErr.noConfusion h

/-- C5 (amended): whenever the configured `n_measurement_steps_fit_type` is
neither "logarithmic" nor "linear" and the degree-metric fit itself returns
successfully, `_get_extrapolated_graph_data` fails with the `ValueError`
whose message names both accepted values and the offending configured
value. -/
theorem unrecognized_fit_type_value_error
    (est : ExtrapolationResourceEstimator) (data : List ResourceInfo)
    (program : QuantumProgram) (v : ℤ × Option ℝ)
    (h1 : est.n_measurement_steps_fit_type ≠ "logarithmic")
    (h2 : est.n_measurement_steps_fit_type ≠ "linear")
    (hdeg : _get_linear_extrapolation
        (est.steps_to_extrapolate_from.map fun s => (s : ℝ))
        (data.map fun d => (d.n_logical_qubits : ℝ))
        (program.steps : ℝ) = .ok v) :
    _get_extrapolated_graph_data est data program
      = .error (.valueError
          ("n_measurement_steps_fit_type must be either \x27logarithmic\x27 or \x27linear\x27, not "
            ++ est.n_measurement_steps_fit_type)) := by
  unfold _get_extrapolated_graph_data
  rw [hdeg]
  dsimp only
  rw [if_neg h1, if_neg h2]

/-- Witness for `unrecognized_fit_type_value_error`: the estimator `estExp`
(fit type "exponential") with the three-sample data set; the degree fit
succeeds with projection 4, and the orchestration fails with the
configuration `ValueError`. -/
theorem unrecognized_fit_type_value_error_witness :
    estExp.n_measurement_steps_fit_type ≠ "logarithmic" ∧
    estExp.n_measurement_steps_fit_type ≠ "linear" ∧
    _get_linear_extrapolation
        (estExp.steps_to_extrapolate_from.map fun s => (s : ℝ))
        (sampleData.map fun d => (d.n_logical_qubits : ℝ))
        (prog4.steps : ℝ) = .ok (4, some 1) ∧
    _get_extrapolated_graph_data estExp sampleData prog4
      = .error (.valueError
          ("n_measurement_steps_fit_type must be either \x27logarithmic\x27 or \x27linear\x27, not "
            ++ estExp.n_measurement_steps_fit_type)) :=
  ⟨by decide, by decide, degree_fit_eval,
    unrecognized_fit_type_value_error estExp sampleData prog4 (4, some 1)
      (by decide) (by decide) degree_fit_eval⟩

/-- C6: for every estimator configuration (whatever the measurement-step fit
type), every successful `_get_extrapolated_graph_data` call computes its
degree-metric projection by the Linear fit: the `max_graph_degree` and its
R-squared in the produced graph data equal the result of a direct
`_get_linear_extrapolation` call on the same data. -/
theorem degree_metric_always_linear_fit (est : ExtrapolationResourceEstimator)
    (data : List ResourceInfo) (program : QuantumProgram)
    (gd : ExtrapolatedGraphData)
    (h : _get_extrapolated_graph_data est data program = .ok gd) :
    _get_linear_extrapolation
        (est.steps_to_extrapolate_from.map fun s => (s : ℝ))
        (data.map fun d => (d.n_logical_qubits : ℝ))
        (program.steps : ℝ)
      = .ok (gd.max_graph_degree, gd.max_graph_degree_r_squared) := by
  unfold _get_extrapolated_graph_data at h
  split at h
  · exact absurd h (by simp)
  · next degreeFit heq =>
    split at h
    · exact absurd h (by simp)
    · next msFit heq2 =>
      injection h with h
      subst h
      rw [heq]

/-- Witness for `degree_metric_always_linear_fit`: the `estLin` run on the
three-sample data set. -/
theorem degree_metric_always_linear_fit_witness :
    _get_extrapolated_graph_data estLin sampleData prog4 = .ok gdStar ∧
    _get_linear_extrapolation
        (estLin.steps_to_extrapolate_from.map fun s => (s : ℝ))
        (sampleData.map fun d => (d.n_logical_qubits : ℝ))
        (prog4.steps : ℝ)
      = .ok (gdStar.max_graph_degree, gdStar.max_graph_degree_r_squared) :=
  ⟨orch_eval,
    degree_metric_always_linear_fit estLin sampleData prog4 gdStar orch_eval⟩

/-- C7 (code behaviour at the claimed input): on zero-variance dependent
values (`y = [7, 7, 7]`), `_get_linear_extrapolation` returns successfully
with R-squared NaN (embedded as `none`, the image of the float division
`0/0`) — the undefined denominator is neither detected nor surfaced as an
error or documented sentinel. -/
theorem zero_variance_r_squared_nan :
    _get_linear_extrapolation (K := ℚ) [1, 2, 3] [7, 7, 7] 5
      = .ok (7, none) := by
  have hy : ([7, 7, 7] : List ℚ) = [1, 2, 3].map fun t => 0 * t + 7 := by
    norm_num
  rw [hy]
  unfold _get_linear_extrapolation
  rw [List.length_map]
  rw [if_neg (by simp : ¬ ([1, 2, 3] : List ℚ).length = 0)]
  rw [if_neg (by simp : ¬ ([1, 2, 3] : List ℚ).length ≠ ([1, 2, 3] : List ℚ).length)]
  rw [polyfit1_collinear 0 7 [1, 2, 3] (by norm_num) notAllEqual123]
  rw [show ([1, 2, 3].map fun t => (0 : ℚ) * t + 7) = [7, 7, 7] from by
    norm_num]
  have h7 : npVar ([7, 7, 7] : List ℚ) = 0 := by norm_num [npVar]
  rw [h7]
  simp only [List.head?]
  rw [if_pos (by norm_num : ((([1, 2, 3] : List ℚ).length : ℚ) * 0 = 0))]
  rw [show (⌈pyRound5 ((0 : ℚ) * 5 + 7)⌉ : ℤ) = 7 from by
    rw [show (0 : ℚ) * 5 + 7 = ((7 : ℤ) : ℚ) from by norm_num,
      pyRound5_intCast, Int.ceil_intCast]]

/-- C8, counterexample: the t-gate count of the final report is taken from
the downstream resource-computation result (here the constant `baseRI`,
whose `n_t_gates` is 30), not from the target program (whose `n_t_gates` is
3) — so gate counts are not "overridden with the target program's exact
values". -/
theorem report_gate_counts_from_downstream :
    (estimate_via_extrapolation estLin algQ sampleData).map
        (fun r => r.n_t_gates) = .ok 30 ∧
    prog4.n_t_gates = 3 ∧ (30 : ℤ) ≠ 3 := by
  refine ⟨?_, rfl, by norm_num⟩
  rw [estimate_eval]
  rfl

/-- C8 (amended): every successful `estimate_via_extrapolation` report
overrides the *node* count with the target program's exact value, equals the
input sample list in `data_used_to_extrapolate`, carries the target
program's step count in `steps_to_extrapolate_to`, and attaches both
R-squared scores from the graph-data fits; its gate counts (and the other
base resource numbers) are taken from the downstream result computed on that
graph data, not from the program. -/
theorem estimate_report_provenance (est : ExtrapolationResourceEstimator)
    (alg : AlgorithmImplementation) (data : List ResourceInfo)
    (program : QuantumProgram) (report : ExtrapolatedResourceInfo)
    (hp : alg.program = .quantum program)
    (h : estimate_via_extrapolation est alg data = .ok report) :
    report.n_nodes = program.n_nodes ∧
    report.steps_to_extrapolate_to = program.steps ∧
    report.data_used_to_extrapolate = data ∧
    ∃ gd, _get_extrapolated_graph_data est data program = .ok gd ∧
      report.n_logical_qubits_r_squared = gd.max_graph_degree_r_squared ∧
      report.n_measurement_steps_r_squared
        = gd.n_measurement_steps_r_squared ∧
      report.n_t_gates
        = (est.estimate_resources_from_graph_data gd alg).n_t_gates ∧
      report.n_rotation_gates
        = (est.estimate_resources_from_graph_data gd alg).n_rotation_gates ∧
      report.n_logical_qubits
        = (est.estimate_resources_from_graph_data gd alg).n_logical_qubits ∧
      report.n_measurement_steps
        = (est.estimate_resources_from_graph_data gd alg).n_measurement_steps := by
  unfold estimate_via_extrapolation at h
  rw [hp] at h
  dsimp only at h
  split at h
  · exact absurd h (by simp)
  · next gd heq =>
    injection h with h
    subst h
    exact ⟨rfl, rfl, rfl, gd, heq, rfl, rfl, rfl, rfl, rfl, rfl⟩

/-- Witness for `estimate_report_provenance`: the `estLin` run. -/
theorem estimate_report_provenance_witness :
    algQ.program = .quantum prog4 ∧
    estimate_via_extrapolation estLin algQ sampleData = .ok repStar ∧
    (repStar.n_nodes = prog4.n_nodes ∧
      repStar.steps_to_extrapolate_to = prog4.steps ∧
      repStar.data_used_to_extrapolate = sampleData ∧
      ∃ gd, _get_extrapolated_graph_data estLin sampleData prog4 = .ok gd ∧
        repStar.n_logical_qubits_r_squared = gd.max_graph_degree_r_squared ∧
        repStar.n_measurement_steps_r_squared
          = gd.n_measurement_steps_r_squared ∧
        repStar.n_t_gates
          = (estLin.estimate_resources_from_graph_data gd algQ).n_t_gates ∧
        repStar.n_rotation_gates
          = (estLin.estimate_resources_from_graph_data gd algQ).n_rotation_gates ∧
        repStar.n_logical_qubits
          = (estLin.estimate_resources_from_graph_data gd algQ).n_logical_qubits ∧
        repStar.n_measurement_steps
          = (estLin.estimate_resources_from_graph_data gd algQ).n_measurement_steps) :=
  ⟨rfl, estimate_eval,
    estimate_report_provenance estLin algQ sampleData prog4 repStar rfl
      estimate_eval⟩

/-- C9: whenever the algorithm description's program object is not a
`QuantumProgram`, `estimate_via_extrapolation` fails with `AssertionError`
before any extrapolation is attempted — the leading
`assert isinstance(..., QuantumProgram)` is the first statement of the
entry point. -/
theorem non_quantum_program_assertion_error
    (est : ExtrapolationResourceEstimator) (alg : AlgorithmImplementation)
    (data : List ResourceInfo) (s : String) (h : alg.program = .other s) :
    estimate_via_extrapolation est alg data = .error .assertionError := by
  unfold estimate_via_extrapolation
  rw [h]

/-- Witness for `non_quantum_program_assertion_error`: `algOther` holds a
non-`QuantumProgram` object. -/
theorem non_quantum_program_assertion_error_witness :
    algOther.program = .other "bell_state_circuit" ∧
    estimate_via_extrapolation estLin algOther sampleData
      = .error .assertionError :=
  ⟨rfl,
    non_quantum_program_assertion_error estLin algOther sampleData
      "bell_state_circuit" rfl⟩

/-- C10: every graph-data record a successful `_get_extrapolated_graph_data`
call hands to the downstream step has `n_nodes` equal to the target
program's `n_t_gates + n_rotation_gates` — a derived value, distinct from
the program's own `n_nodes` field that the final report uses. -/
theorem graph_data_n_nodes_recomputed (est : ExtrapolationResourceEstimator)
    (data : List ResourceInfo) (program : QuantumProgram)
    (gd : ExtrapolatedGraphData)
    (h : _get_extrapolated_graph_data est data program = .ok gd) :
    gd.n_nodes = program.n_t_gates + program.n_rotation_gates := by
  unfold _get_extrapolated_graph_data at h
  split at h
  · exact absurd h (by simp)
  · split at h
    · exact absurd h (by simp)
    · injection h with h
      subst h
      rfl

/-- Witness for `graph_data_n_nodes_recomputed`: the `estLin` run, where the
graph data's `n_nodes` is `3 + 2 = 5` while `prog4.n_nodes` is 7. -/
theorem graph_data_n_nodes_recomputed_witness :
    _get_extrapolated_graph_data estLin sampleData prog4 = .ok gdStar ∧
    gdStar.n_nodes = prog4.n_t_gates + prog4.n_rotation_gates :=
  ⟨orch_eval,
    graph_data_n_nodes_recomputed estLin sampleData prog4 gdStar orch_eval⟩

end Benchq
